import Mathlib

/-!
Verification development for the AguaClara design library
(`aguaclara/design/component.py` and `aguaclara/design/pipeline.py`).

The Python code is shallowly embedded: class attributes become structure
fields, the process-wide `PlantInput.configs` dictionary becomes an explicit
registry state threaded through the operations, Python exceptions become an
`Except PyErr` result, and physical quantities (pint `Quantity` values)
become plain rationals, dropping the unit annotations (all quantities in the
modelled code paths are used in a single consistent unit).

External collaborators (the `aguaclara.core` package: `physchem`, `utility`,
the pipe/fitting CSV catalogs) are not part of this repository; they are
modelled as parameters (`Phys`) or, where a claim depends on their documented
behaviour, from the spec (`ceil_nearest`).
-/

namespace AguaClara

/-- The Python exception classes raised by the modelled code.  `keyError`
models `KeyError`, which is a subclass of Python's `LookupError`. -/
inductive PyErr where
  | attributeError (msg : String)
  | typeError (msg : String)
  | valueError (msg : String)
  | keyError
  | zeroDivisionError
deriving DecidableEq

deriving instance DecidableEq for Except

/-- Message of the `AttributeError` raised when both `size` and `id` are
supplied (pipeline.py lines 44-48). -/
def bothSizeIdMsg : String :=
  "A PipelineComponent must be instantiated with either the size or inner diameter, but not both."

/-- Message of the `TypeError` raised by `Component.__init__` for a keyword
argument other than `q` and `temp` (component.py line 65: the signature
accepts only `q` and `temp`). -/
def unexpectedKwMsg : String :=
  "got an unexpected keyword argument"

/-- Message of pipeline.py line 135. -/
def pipesFittingsMsg : String := "Pipes must be connected with fittings."

/-- Message of pipeline.py line 137. -/
def fittingsPipesMsg : String := "Fittings must be followed by pipes."

/-- Message of pipeline.py line 346. -/
def oneStopperMsg : String := "All tees must have one stopper."

/-- Message of pipeline.py lines 348-351. -/
def leftPathMsg : String := "type of branch for left outlet must be in AVAILABLE_PATHS"

/-- Message of pipeline.py lines 353-356. -/
def rightPathMsg : String := "type of branch for right outlet must be in AVAILABLE_PATHS"

/-- Message of pipeline.py line 359 (apostrophe dropped). -/
def sizeMismatchMsg : String := "The next component does not have the same size."

/-- Message of pipeline.py line 362. -/
def teeFittingMsg : String := "Tees cannot be followed by other fittings."

/-- Message of pipeline.py lines 103-104 (the source concatenates the two
string literals without a separating space). -/
def seedPipeMsg : String :=
  "Neither of the first two components inthis pipeline are Pipe objects."

/-- Message for the `AttributeError` raised by assigning to the read-only
property `Component.q` (component.py lines 71-74: `@property` with no
setter). -/
def qSetterMsg : String := "property q of Component object has no setter"

/-- Message of pipeline.py line 152. -/
def specMsg : String := "spec must be one of AVAILABLE_SPECS"

/-- Message of pipeline.py line 238. -/
def angleMsg : String := "angle must be in AVAILABLE_ANGLES"

/-! ## component.py: `PlantInput` and `Component`

`PlantInput.configs` is a class-level dictionary mapping `hex(id(obj))`
memory locations to `PlantInput` records.  Python stores object references in
the dictionary, so two keys may alias the identical record; the embedding
makes the heap explicit: records live at numeric addresses in `heap`, and
`configs` maps a component's memory location to the address of its record.
Reference equality in Python is address equality here. -/

/-- `PlantInput` (component.py line 28): the shared plant design inputs. -/
structure PlantInput where
  q : ℚ
  temp : ℚ
deriving DecidableEq

/-- The process-wide registry state: an explicit heap of `PlantInput`
records (`heap`, with `nextAddr` the next fresh address) plus the
`PlantInput.configs` dictionary (`configs`, an association list from a
component's memory location to its record's address; `List.lookup` finds the
most recent binding, matching dictionary update). -/
structure RegState where
  heap : Nat → PlantInput
  nextAddr : Nat
  configs : List (Nat × Nat)

/-- `Component.__init__` (component.py lines 65-69): if the component's
memory location is not yet in `PlantInput.configs`, allocate a fresh
`PlantInput(q, temp)` record and associate the location with it; otherwise do
nothing. -/
def Component.register (loc : Nat) (q temp : ℚ) (s : RegState) : RegState :=
  match s.configs.lookup loc with
  | some _ => s
  | none =>
    { heap := fun a => if a = s.nextAddr then ⟨q, temp⟩ else s.heap a
      nextAddr := s.nextAddr + 1
      configs := (loc, s.nextAddr) :: s.configs }

/-- `Component.q` (component.py lines 71-74): resolve the flow rate through
`PlantInput.configs[self.mem_loc]`.  A missing key raises `KeyError` (a
`LookupError`). -/
def Component.qAcc (loc : Nat) (s : RegState) : Except PyErr ℚ :=
  match s.configs.lookup loc with
  | none => Except.error PyErr.keyError
  | some a => Except.ok (s.heap a).q

/-- `Component.temp` (component.py lines 76-79): resolve the temperature
through `PlantInput.configs[self.mem_loc]`. -/
def Component.tempAcc (loc : Nat) (s : RegState) : Except PyErr ℚ :=
  match s.configs.lookup loc with
  | none => Except.error PyErr.keyError
  | some a => Except.ok (s.heap a).temp

/-- `Component.propogate_config` (component.py lines 81-92): for each
subcomponent in order, `PlantInput.configs[sub_mem_loc] =
PlantInput.configs[self.mem_loc]` — the child's slot is overwritten with the
parent's record reference (the address, not a copy of the record).  The
parent's entry is looked up on each iteration, and a missing parent key
raises `KeyError`. -/
def Component.propogate_config (loc : Nat) (subs : List Nat) (s : RegState) :
    Except PyErr RegState :=
  match subs with
  | [] => Except.ok s
  | sub :: rest =>
    match s.configs.lookup loc with
    | none => Except.error PyErr.keyError
    | some pa =>
      Component.propogate_config loc rest
        { s with configs := (sub, pa) :: s.configs }

/-- Mutation of a registered component's record: `PlantInput.configs[loc].q =
v` in Python updates the record object in place, so every memory location
whose slot aliases the same address observes the new value. -/
def set_record_q (loc : Nat) (v : ℚ) (s : RegState) : Except PyErr RegState :=
  match s.configs.lookup loc with
  | none => Except.error PyErr.keyError
  | some a =>
    Except.ok
      { s with heap := fun b => if b = a then { s.heap b with q := v } else s.heap b }

/-! ## pipeline.py: the chain data model

`PipelineComponent` instances form a singly linked chain through `next`;
`next is None` terminates the chain.  The three concrete variants are `Pipe`,
`Elbow` and `Tee`.  Each node's `q` accessor resolves through the registry
(see `Component.qAcc`); since every constructed component is registered, the
resolved value is carried here as a field of the node. -/

/-- The concrete `PipelineComponent` subclasses. -/
inductive Variant where
  | pipe
  | elbow
  | tee
deriving DecidableEq

/-- `Tee.AVAILABLE_PATHS` entries (pipeline.py line 270). -/
inductive PathType where
  | branch
  | run
  | stopper
deriving DecidableEq

/-- The attributes of a constructed `Pipe` read by `headloss` and
`flow_pipeline` (pipeline.py lines 140-160, 211-216). -/
structure PipeFields where
  id : ℚ
  length : ℚ
  nu : ℚ
  pipe_rough : ℚ
  k_minor : ℚ
  size : ℚ
  q : ℚ
deriving DecidableEq

/-- The attributes of a constructed `Elbow` read by `headloss`
(pipeline.py lines 223-246, 260-262). -/
structure ElbowFields where
  id : ℚ
  k_minor : ℚ
  size : ℚ
  q : ℚ
deriving DecidableEq

/-- The attributes of a constructed `Tee` read by `headloss` (pipeline.py
lines 268-327).  In Python the minor-loss coefficient of a `stopper` outlet
is `None` and is never read by `headloss` on a well-formed tee (exactly one
stopper); the embedding carries both coefficients as rationals. -/
structure TeeFields where
  id : ℚ
  left_type : PathType
  right_type : PathType
  left_k_minor : ℚ
  right_k_minor : ℚ
  size : ℚ
  q : ℚ
deriving DecidableEq

/-- A pipeline chain node: one of the three variants with its attributes. -/
inductive Node where
  | pipe (f : PipeFields)
  | elbow (f : ElbowFields)
  | tee (f : TeeFields)
deriving DecidableEq

/-- A pipeline chain: `last n` is a component whose `next` is `None`;
`cons n rest` is a component whose `next` is the head of `rest`. -/
inductive PComp where
  | last (n : Node)
  | cons (n : Node) (rest : PComp)
deriving DecidableEq

/-- The head node of the chain (`self`). -/
def PComp.node : PComp → Node
  | .last n => n
  | .cons n _ => n

/-- The `next` attribute of the head component. -/
def PComp.next : PComp → Option PComp
  | .last _ => none
  | .cons _ rest => some rest

/-- The nodes of the chain in order. -/
def PComp.toList : PComp → List Node
  | .last n => [n]
  | .cons n rest => n :: rest.toList

/-- The external physical-formula collaborator (`aguaclara.core.physchem`,
outside this repository): friction head loss, fitting minor loss, and the
closed-form pipe flow for a given head loss.  The claims hold for every
instantiation, so the collaborator is a parameter of the model. -/
structure Phys where
  headloss_fric : ℚ → ℚ → ℚ → ℚ → ℚ → ℚ
  elbow_minor_loss : ℚ → ℚ → ℚ → ℚ
  flow_pipe : ℚ → ℚ → ℚ → ℚ → ℚ → ℚ → ℚ

/-- The variant-specific `headloss` property: `Pipe.headloss` (pipeline.py
lines 211-216) is `pc.headloss_fric(q, id, length, nu, pipe_rough)`;
`Elbow.headloss` (lines 260-262) is `pc.elbow_minor_loss(q, id, k_minor)`;
`Tee.headloss` (lines 314-327) is the minor loss of the non-stopper outlet
(the right outlet when the left one is the stopper, the left one
otherwise). -/
def Node.headloss (ph : Phys) : Node → ℚ
  | .pipe f => ph.headloss_fric f.q f.id f.length f.nu f.pipe_rough
  | .elbow f => ph.elbow_minor_loss f.q f.id f.k_minor
  | .tee f =>
    if f.left_type = PathType.stopper then
      ph.elbow_minor_loss f.q f.id f.right_k_minor
    else
      ph.elbow_minor_loss f.q f.id f.left_k_minor

/-- `PipelineComponent.headloss_pipeline` (pipeline.py lines 69-74): the
component's own `headloss` when `next is None`, otherwise its own `headloss`
plus `next.headloss_pipeline`. -/
def PComp.headloss_pipeline (ph : Phys) : PComp → ℚ
  | .last n => n.headloss ph
  | .cons n rest => n.headloss ph + rest.headloss_pipeline ph

/-- An assignment `component.q = value`.  `Component.q` (component.py lines
71-74) is declared with `@property` and has no setter, so any attribute
assignment to `q` on a `Component` instance raises
`AttributeError` — the property is a data descriptor without `fset`. -/
def set_q_attr : Except PyErr Unit :=
  Except.error (PyErr.attributeError qSetterMsg)

/-- `PipelineComponent.set_next_components_q` (pipeline.py lines 76-79):
no-op when `next is None`; otherwise executes `self.next.q = self.q` (which
always raises, see `set_q_attr`) and then recurses into `next`. -/
def set_next_components_q : PComp → Except PyErr Unit
  | .last _ => Except.ok ()
  | .cons _ rest =>
    Except.bind set_q_attr (fun _u => set_next_components_q rest)

/-- The initial flow guess of `flow_pipeline` (pipeline.py lines 86-104):
if `self` is a `Pipe`, `pc.flow_pipe` on `self`; otherwise `pc.flow_pipe` on
`self.next`, which succeeds only when `next` is a `Pipe` (an `Elbow`, `Tee`
or `None` lacks the `length` attribute, and the resulting `AttributeError`
is re-raised with the message below). -/
def seedFlow (ph : Phys) (c : PComp) (target : ℚ) : Except PyErr ℚ :=
  match c.node with
  | .pipe f =>
    Except.ok (ph.flow_pipe f.id target f.length f.nu f.pipe_rough f.k_minor)
  | _ =>
    match c.next with
    | some rest =>
      match rest.node with
      | .pipe f =>
        Except.ok (ph.flow_pipe f.id target f.length f.nu f.pipe_rough f.k_minor)
      | _ => Except.error (PyErr.attributeError seedPipeMsg)
    | none => Except.error (PyErr.attributeError seedPipeMsg)

/-- One entry into the `while abs(err) > 0.01` body of `flow_pipeline`
(pipeline.py lines 108-113): compute `err = (target - headloss) / (target +
headloss)` (Python raises `ZeroDivisionError` when the denominator is zero),
update `flow`, then execute `self.q = flow` — which always raises (see
`set_q_attr`), so the remainder of the body (`set_next_components_q`,
recomputing `headloss`, re-testing the guard) is unreachable; the embedding
therefore needs no further loop unfolding. -/
def loopBody (c : PComp) (target flow headloss : ℚ) : Except PyErr ℚ :=
  if target + headloss = 0 then Except.error PyErr.zeroDivisionError
  else
    let err := (target - headloss) / (target + headloss)
    let flow2 := flow + err * flow
    Except.bind set_q_attr (fun _u =>
      Except.bind (set_next_components_q c) (fun _v => Except.ok flow2))

/-- `PipelineComponent.flow_pipeline` (pipeline.py lines 81-114): seed the
flow guess, set `err = 1.0`, compute `headloss = self.headloss_pipeline`,
and run the relaxation loop.  Since `abs 1.0 > 0.01`, the loop is always
entered. -/
def flow_pipeline (ph : Phys) (c : PComp) (target : ℚ) : Except PyErr ℚ :=
  Except.bind (seedFlow ph c target) (fun flow =>
    if abs (1 : ℚ) > 1 / 100 then
      loopBody c target flow (c.headloss_pipeline ph)
    else Except.ok flow)

/-! ## pipeline.py: construction

All three variant constructors take `**kwargs` and forward them unchanged to
`PipelineComponent.__init__`, which (after checking that `size` and `id` are
not both present) forwards them unchanged to `Component.__init__`, whose
signature accepts only `q` and `temp`.  Construction control flow depends
only on which keywords are present, so keyword sets are modelled as lists of
names. -/

/-- The keyword-argument names relevant to the documented construction API. -/
inductive KwName where
  | q
  | temp
  | size
  | id
  | spec
  | length
  | angle
  | left
  | right
deriving DecidableEq

/-- Keyword acceptance of `Component.__init__` (component.py line 65):
`def __init__(self, q=..., temp=...)` — any other keyword raises
`TypeError`.  (The body's registry effect is `Component.register`.) -/
def Component.initKw (kw : List KwName) : Except PyErr Unit :=
  if ∀ x ∈ kw, x = KwName.q ∨ x = KwName.temp then Except.ok ()
  else Except.error (PyErr.typeError unexpectedKwMsg)

/-- `PipelineComponent._rep_ok` (pipeline.py lines 132-137), used by `Pipe`
and `Elbow` (`Tee` overrides it): with a non-`None` `next`, a `Pipe` must be
followed by an `Elbow` or a `Tee`, and an `Elbow` must be followed by a
`Pipe`; both violations raise `TypeError`. -/
def rep_ok_base (v : Variant) (nxt : Option Variant) : Except PyErr Unit :=
  match nxt with
  | none => Except.ok ()
  | some nv =>
    if v = Variant.pipe ∧ nv ≠ Variant.elbow ∧ nv ≠ Variant.tee then
      Except.error (PyErr.typeError pipesFittingsMsg)
    else if v = Variant.elbow ∧ nv ≠ Variant.pipe then
      Except.error (PyErr.typeError fittingsPipesMsg)
    else Except.ok ()

/-- `Tee._rep_ok` (pipeline.py lines 344-362), as a function of the tee's
outlet types, its size, and the variant and size of its `next` component (the
only parts of `next` the method reads): exactly one outlet must be a
`stopper`, both outlet types must be in `AVAILABLE_PATHS` (trivially true for
`PathType`), a non-`None` `next` must have the same size, and must not be
another fitting. -/
def Tee.rep_ok (lt rt : PathType) (size : ℚ) (nxt : Option (Variant × ℚ)) :
    Except PyErr Unit :=
  if ([lt, rt].count PathType.stopper) ≠ 1 then
    Except.error (PyErr.valueError oneStopperMsg)
  else if lt ∉ [PathType.branch, PathType.run, PathType.stopper] then
    Except.error (PyErr.valueError leftPathMsg)
  else if rt ∉ [PathType.branch, PathType.run, PathType.stopper] then
    Except.error (PyErr.valueError rightPathMsg)
  else
    match nxt with
    | none => Except.ok ()
    | some (nv, nsize) =>
      if size ≠ nsize then Except.error (PyErr.valueError sizeMismatchMsg)
      else if nv = Variant.elbow ∨ nv = Variant.tee then
        Except.error (PyErr.valueError teeFittingMsg)
      else Except.ok ()

/-- The `self._rep_ok()` call at pipeline.py line 57, at which point `next`
is `None` (set at line 52) and, for a `Tee`, the outlet types still hold
their defaults `left_type = branch`, `right_type = stopper` (set at lines
274-279 before the `super().__init__` call); dynamic dispatch selects
`Tee._rep_ok` for tees and the base `_rep_ok` otherwise. -/
def repOkDefault : Variant → Except PyErr Unit
  | Variant.pipe => rep_ok_base Variant.pipe none
  | Variant.elbow => rep_ok_base Variant.elbow none
  | Variant.tee => Tee.rep_ok PathType.branch PathType.stopper (1 / 2) none

/-- `PipelineComponent.__init__` (pipeline.py lines 43-59): raise
`AttributeError` if both `size` and `id` are supplied; otherwise set the
default fields, forward the keywords to `Component.__init__`, and run
`self._rep_ok()` (the final size snap `get_available_size` cannot fail). -/
def PipelineComponent.initKw (v : Variant) (kw : List KwName) :
    Except PyErr Unit :=
  if KwName.size ∈ kw ∧ KwName.id ∈ kw then
    Except.error (PyErr.attributeError bothSizeIdMsg)
  else
    Except.bind (Component.initKw kw) (fun _u => repOkDefault v)

/-- `Pipe.AVAILABLE_SPECS` (pipeline.py line 141). -/
def AVAILABLE_SPECS : List String := ["sdr26", "sdr41", "sch40"]

/-- The tail of `Pipe.__init__` after `super().__init__` (pipeline.py lines
151-160): the spec check on the default spec `sdr41`; the `size`/`id`
derivation branches and the `next`-size check cannot run here, because any
construction reaching this point had no `size`, `id` or other extra keyword
(they would have raised in `Component.__init__`), and `next` is `None`. -/
def Pipe.initTail : Except PyErr Unit :=
  if "sdr41" ∈ AVAILABLE_SPECS then Except.ok ()
  else Except.error (PyErr.attributeError specMsg)

/-- The tail of `Elbow.__init__` after `super().__init__` (pipeline.py lines
233-246) with the default `angle = 90`; the `size`/`id` branches and the
`next`-size check are unreachable as in `Pipe.initTail`. -/
def Elbow.initTail (angle : ℚ) : Except PyErr Unit :=
  if angle = 45 then Except.ok ()
  else if angle = 90 then Except.ok ()
  else Except.error (PyErr.valueError angleMsg)

/-- The tail of `Tee.__init__` after `super().__init__` (pipeline.py lines
286-312) with the default outlets (`left = None`, `left_type = branch`,
`right = None`, `right_type = stopper`): assign the outlet coefficients, set
`next` to the non-stopper outlet (`left`, i.e. `None`), skip the unreachable
`size`/`id` branches, and re-run `self._rep_ok()`. -/
def Tee.initTail : Except PyErr Unit :=
  Tee.rep_ok PathType.branch PathType.stopper (1 / 2) none

/-- Construction of each variant with a given keyword set: `Pipe(**kwargs)`,
`Elbow(**kwargs)`, `Tee(**kwargs)`. -/
def construct : Variant → List KwName → Except PyErr Unit
  | Variant.pipe, kw =>
    Except.bind (PipelineComponent.initKw Variant.pipe kw) (fun _u => Pipe.initTail)
  | Variant.elbow, kw =>
    Except.bind (PipelineComponent.initKw Variant.elbow kw) (fun _u => Elbow.initTail 90)
  | Variant.tee, kw =>
    Except.bind (PipelineComponent.initKw Variant.tee kw) (fun _u => Tee.initTail)

/-! ## pipeline.py: size and inner-diameter derivation for `Pipe` -/

/-- Modelled from the spec: the external SizeCatalog selection
(`aguaclara.core.utility.ceil_nearest`, outside this repository) returns the
next-larger-or-equal entry of the available-size table; when no entry is at
least `x` the input is returned unchanged. -/
def ceil_nearest (x : ℚ) (avail : List ℚ) : ℚ :=
  match avail.filter (fun y => decide (x ≤ y)) with
  | [] => x
  | y :: ys => ys.foldl min y

/-- `Pipe._get_id_sdr` (pipeline.py lines 181-183): snap the nominal size to
the next available catalog size, and derive the inner diameter by the SDR
ratio `size * (sdr - 2) / sdr`.  Returns the pair (new `self.size`, returned
inner diameter); the available-size table is a parameter since the catalog
CSV is external. -/
def Pipe.get_id_sdr (avail : List ℚ) (size sdr : ℚ) : ℚ × ℚ :=
  let s := ceil_nearest size avail
  (s, s * (sdr - 2) / sdr)

/-- `Pipe._get_size_sdr` (pipeline.py lines 190-193): snap
`id * sdr / (sdr - 2)` to the next available catalog size `nd`, set
`self.id` to the SDR inner diameter of `nd`, and return `nd`.  Returns the
pair (returned nominal size, new `self.id`). -/
def Pipe.get_size_sdr (avail : List ℚ) (innerD sdr : ℚ) : ℚ × ℚ :=
  let nd := ceil_nearest (innerD * sdr / (sdr - 2)) avail
  (nd, (Pipe.get_id_sdr avail nd sdr).2)

/-- Whether a Python call returned normally (no exception was raised). -/
def isOkB : Except PyErr ℚ → Bool
  | .ok _ => true
  | .error _ => false

/-! ## Concrete sample objects for evaluating the embedding -/

/-- A concrete stand-in for the external physchem collaborator, used only to
evaluate the embedding at sample inputs (the theorems quantified over `Phys`
hold for every instantiation). -/
def samplePhys : Phys where
  headloss_fric := fun q _d l _nu _rough => q * l
  elbow_minor_loss := fun q _d k => q * k
  flow_pipe := fun _d hl _l _nu _rough _k => hl

/-- A default-constructed `Pipe` (pipeline.py lines 50, 140-148): size 0.5,
inner diameter 0.476, length 1, registry flow 20. -/
def samplePipeNode : Node :=
  Node.pipe
    { id := 476 / 1000, length := 1, nu := 1 / 1000000,
      pipe_rough := 1 / 100000, k_minor := 0, size := 1 / 2, q := 20 }

/-- A default-constructed `Elbow` (pipeline.py lines 227-236): inner
diameter 0.848, 90-degree minor-loss coefficient 0.9. -/
def sampleElbowNode : Node :=
  Node.elbow { id := 848 / 1000, k_minor := 9 / 10, size := 1 / 2, q := 20 }

/-- A two-component chain `Pipe -> Elbow`. -/
def sampleChain2 : PComp := PComp.cons samplePipeNode (PComp.last sampleElbowNode)

/-- The registry before any component is constructed: `PlantInput.configs`
is empty. -/
def emptyReg : RegState where
  heap := fun _a => ⟨0, 0⟩
  nextAddr := 0
  configs := []

/-- The registry after constructing a parent component at memory location 1
(flow 20, temperature 20) and a child component at memory location 2 (flow 7,
temperature 25). -/
def sampleReg : RegState :=
  Component.register 2 7 25 (Component.register 1 20 20 emptyReg)

/-- `sampleReg` after `parent.propogate_config([child])`: location 2 now
aliases the record at address 0 (the parent's record). -/
def samplePropagated : RegState :=
  { sampleReg with configs := (2, 0) :: sampleReg.configs }

/-- `samplePropagated` after mutating the parent's record:
`PlantInput.configs[1].q = 99`. -/
def sampleMutated : RegState :=
  { samplePropagated with
    heap := fun b =>
      if b = 0 then { samplePropagated.heap b with q := 99 }
      else samplePropagated.heap b }

/-- `sampleReg` after mutating the parent record directly:
`PlantInput.configs[1].q = 99`. -/
def sampleRegMutated : RegState :=
  { sampleReg with
    heap := fun b =>
      if b = 0 then { sampleReg.heap b with q := 99 }
      else sampleReg.heap b }

/-! ## Theorems -/

/-- Claim C2: `headloss_pipeline` equals the exact sum of each node's
independently computed `headloss` over the whole `next`-chain (in particular
for any `Pipe -> Elbow -> Pipe` chain), and for a component whose `next` is
`None` it equals that component's own `headloss` alone. -/
theorem headloss_pipeline_is_sum (ph : Phys) (c : PComp) :
    c.headloss_pipeline ph = (c.toList.map (Node.headloss ph)).sum
      ∧ ∀ n : Node, (PComp.last n).headloss_pipeline ph = n.headloss ph := by
  constructor
  · induction c with
    | last n => simp [PComp.headloss_pipeline, PComp.toList]
    | cons n rest ih => simp [PComp.headloss_pipeline, PComp.toList, ih]
  · intro n
    rfl

/-- Claim C5: the structural validation shared by `Pipe` and `Elbow`
(`PipelineComponent._rep_ok`) fails with the chain-structure `TypeError`
exactly when a `Pipe` is followed by a non-fitting (in particular a `Pipe`
directly by a `Pipe`) or an `Elbow` by a non-`Pipe`; chains satisfying the
adjacency rules, and components with `next = None`, pass. -/
theorem rep_ok_adjacency (nv : Variant) :
    (rep_ok_base Variant.pipe (some nv)
        = Except.error (PyErr.typeError pipesFittingsMsg)
      ↔ (nv ≠ Variant.elbow ∧ nv ≠ Variant.tee))
    ∧ (rep_ok_base Variant.elbow (some nv)
        = Except.error (PyErr.typeError fittingsPipesMsg)
      ↔ nv ≠ Variant.pipe)
    ∧ rep_ok_base Variant.pipe (some Variant.pipe)
        = Except.error (PyErr.typeError pipesFittingsMsg)
    ∧ rep_ok_base Variant.pipe (some Variant.elbow) = Except.ok ()
    ∧ rep_ok_base Variant.pipe (some Variant.tee) = Except.ok ()
    ∧ rep_ok_base Variant.elbow (some Variant.pipe) = Except.ok ()
    ∧ rep_ok_base Variant.pipe none = Except.ok ()
    ∧ rep_ok_base Variant.elbow none = Except.ok () := by
  cases nv <;> decide

/-- Characterization of construction for every variant and keyword set: the
`size`/`id` mutual-exclusion check fires first; otherwise any keyword outside
`q`/`temp` raises `TypeError` in `Component.__init__`; otherwise construction
succeeds (the default field values satisfy every later check). -/
theorem construct_eq (v : Variant) (kw : List KwName) :
    construct v kw =
      if KwName.size ∈ kw ∧ KwName.id ∈ kw then
        Except.error (PyErr.attributeError bothSizeIdMsg)
      else if ∀ x ∈ kw, x = KwName.q ∨ x = KwName.temp then Except.ok ()
      else Except.error (PyErr.typeError unexpectedKwMsg) := by
  by_cases hb : KwName.size ∈ kw ∧ KwName.id ∈ kw
  · cases v <;> simp [construct, PipelineComponent.initKw, hb, Except.bind]
  · by_cases hall : ∀ x ∈ kw, x = KwName.q ∨ x = KwName.temp
    · have hck : Component.initKw kw = Except.ok () := by
        unfold Component.initKw
        rw [if_pos hall]
      cases v <;>
        simp [construct, PipelineComponent.initKw, hb, hall, hck, Except.bind] <;>
          rw [if_pos hall] <;> rfl
    · have hck : Component.initKw kw = Except.error (PyErr.typeError unexpectedKwMsg) := by
        unfold Component.initKw
        rw [if_neg hall]
      cases v <;>
        simp [construct, PipelineComponent.initKw, hb, hall, hck, Except.bind]

/-- Claim C4: constructing any variant with both `size` and `id` supplied
fails with the mutual-exclusion `AttributeError`, and constructing with at
most one of the two never raises that particular error. -/
theorem construct_size_id_exclusive (v : Variant) (kw : List KwName) :
    (KwName.size ∈ kw ∧ KwName.id ∈ kw →
      construct v kw = Except.error (PyErr.attributeError bothSizeIdMsg))
    ∧ (¬(KwName.size ∈ kw ∧ KwName.id ∈ kw) →
      construct v kw ≠ Except.error (PyErr.attributeError bothSizeIdMsg)) := by
  rw [construct_eq]
  constructor
  · intro h
    rw [if_pos h]
  · intro h
    rw [if_neg h]
    by_cases hall : ∀ x ∈ kw, x = KwName.q ∨ x = KwName.temp
    · rw [if_pos hall]
      simp
    · rw [if_neg hall]
      simp

/-- Witness for claim C4 at concrete keyword sets: both supplied raises the
mutual-exclusion error; `size` alone does not raise that error. -/
theorem construct_size_id_exclusive_witness :
    construct Variant.pipe [KwName.size, KwName.id]
      = Except.error (PyErr.attributeError bothSizeIdMsg)
    ∧ construct Variant.pipe [KwName.size]
      ≠ Except.error (PyErr.attributeError bothSizeIdMsg) := by
  exact ⟨(construct_size_id_exclusive Variant.pipe [KwName.size, KwName.id]).1
      (by decide),
    (construct_size_id_exclusive Variant.pipe [KwName.size]).2 (by decide)⟩

/-- Claim C9: for every variant, any keyword argument other than `q` or
`temp` (when `size` and `id` are not both present, which errors earlier) is
forwarded unconsumed to `Component.__init__` and raises `TypeError`, so the
variant-specific construction options are never assigned. -/
theorem construct_extra_kw_typeerror (v : Variant) (kw : List KwName)
    (k : KwName) (hk : k ∈ kw) (hq : k ≠ KwName.q) (ht : k ≠ KwName.temp)
    (hb : ¬(KwName.size ∈ kw ∧ KwName.id ∈ kw)) :
    construct v kw = Except.error (PyErr.typeError unexpectedKwMsg) := by
  have hall : ¬ ∀ x ∈ kw, x = KwName.q ∨ x = KwName.temp := by
    intro hall
    rcases hall k hk with h | h
    · exact hq h
    · exact ht h
  cases v <;>
    simp [construct, PipelineComponent.initKw, hb, Component.initKw, hall,
      Except.bind]

/-- Witness for claim C9: `Elbow(angle=...)` raises `TypeError`. -/
theorem construct_extra_kw_typeerror_witness :
    construct Variant.elbow [KwName.angle]
      = Except.error (PyErr.typeError unexpectedKwMsg) :=
  construct_extra_kw_typeerror Variant.elbow [KwName.angle] KwName.angle
    (by decide) (by decide) (by decide) (by decide)

/-- Claim C6 (code bug): `Tee.__init__` never sees caller-chosen outlet
descriptors — `Tee(left=..., right=...)` raises `TypeError` in
`Component.__init__` before any outlet type is assigned, rather than the
claimed structural error — while the unreached `Tee._rep_ok` logic itself
does enforce the claimed invariants: zero or two `stopper` outlets are
rejected, the non-stopper outlet's component may not be another fitting, and
a well-formed tee (one stopper, matching-size `Pipe` next) passes. -/
theorem tee_stopper_rule_unreachable :
    construct Variant.tee [KwName.left, KwName.right]
      = Except.error (PyErr.typeError unexpectedKwMsg)
    ∧ Tee.rep_ok PathType.stopper PathType.stopper (1 / 2) none
      = Except.error (PyErr.valueError oneStopperMsg)
    ∧ Tee.rep_ok PathType.branch PathType.run (1 / 2) none
      = Except.error (PyErr.valueError oneStopperMsg)
    ∧ Tee.rep_ok PathType.branch PathType.stopper (1 / 2)
        (some (Variant.elbow, 1 / 2))
      = Except.error (PyErr.valueError teeFittingMsg)
    ∧ Tee.rep_ok PathType.branch PathType.stopper (1 / 2)
        (some (Variant.tee, 1 / 2))
      = Except.error (PyErr.valueError teeFittingMsg)
    ∧ Tee.rep_ok PathType.stopper PathType.run (1 / 2)
        (some (Variant.pipe, 1 / 2))
      = Except.ok () := by
  have hc1 : [PathType.branch, PathType.stopper].count PathType.stopper = 1 := rfl
  have hc2 : [PathType.stopper, PathType.run].count PathType.stopper = 1 := rfl
  refine ⟨?_, ?_, ?_, ?_, ?_, ?_⟩
  · rw [construct_eq]
    decide
  · decide
  · decide
  · simp [Tee.rep_ok, hc1]
  · simp [Tee.rep_ok, hc1]
  · simp [Tee.rep_ok, hc2]

/-- Claim C7 (code bug): `Pipe(size=...)` and `Pipe(id=...)` raise
`TypeError` in `Component.__init__` before the size/diameter derivation can
run, while the unreached derivation helpers themselves implement the claimed
rule: `_get_id_sdr` snaps the size to the next-larger-or-equal catalog entry
and applies `size * (sdr - 2) / sdr`, and `_get_size_sdr` snaps
`id * sdr / (sdr - 2)` and re-derives the inner diameter (evaluated here on
the catalog slice `[1/2, 1, 2]` with SDR 41). -/
theorem pipe_size_id_derivation_unreachable :
    construct Variant.pipe [KwName.size]
      = Except.error (PyErr.typeError unexpectedKwMsg)
    ∧ construct Variant.pipe [KwName.id]
      = Except.error (PyErr.typeError unexpectedKwMsg)
    ∧ Pipe.get_id_sdr [1 / 2, 1, 2] (3 / 4) 41 = (1, 39 / 41)
    ∧ Pipe.get_size_sdr [1 / 2, 1, 2] (39 / 41) 41 = (1, 39 / 41) := by
  refine ⟨?_, ?_, ?_, ?_⟩
  · rw [construct_eq]
    decide
  · rw [construct_eq]
    decide
  · norm_num [Pipe.get_id_sdr, ceil_nearest, List.filter, List.foldl]
  · norm_num [Pipe.get_size_sdr, Pipe.get_id_sdr, ceil_nearest, List.filter,
      List.foldl]

/-- Helper: the initial flow guess either succeeds or raises the
`AttributeError` of pipeline.py lines 102-104 (no pipe segment among the
first two components). -/
theorem seedFlow_cases (ph : Phys) (c : PComp) (t : ℚ) :
    (∃ fl, seedFlow ph c t = Except.ok fl)
    ∨ seedFlow ph c t = Except.error (PyErr.attributeError seedPipeMsg) := by
  cases c with
  | last n =>
    rcases n with f | f | f
    · exact Or.inl ⟨_, rfl⟩
    · exact Or.inr rfl
    · exact Or.inr rfl
  | cons n rest =>
    rcases n with f | f | f
    · exact Or.inl ⟨_, rfl⟩
    · rcases rest with n2 | ⟨n2, rest2⟩ <;> rcases n2 with f2 | f2 | f2 <;>
        first
          | exact Or.inl ⟨_, rfl⟩
          | exact Or.inr rfl
    · rcases rest with n2 | ⟨n2, rest2⟩ <;> rcases n2 with f2 | f2 | f2 <;>
        first
          | exact Or.inl ⟨_, rfl⟩
          | exact Or.inr rfl

/-- Helper: whenever the seed succeeds and the relative-error denominator at
loop entry is nonzero, `flow_pipeline` raises the read-only-property
`AttributeError` at the `self.q = flow` assignment of its first loop
iteration. -/
theorem flow_pipeline_loop_error (ph : Phys) (c : PComp) (t fl : ℚ)
    (hs : seedFlow ph c t = Except.ok fl)
    (hz : t + c.headloss_pipeline ph ≠ 0) :
    flow_pipeline ph c t = Except.error (PyErr.attributeError qSetterMsg) := by
  have hguard : abs (1 : ℚ) > 1 / 100 := by norm_num
  simp only [flow_pipeline, hs, Except.bind, if_pos hguard, loopBody, if_neg hz]
  rfl

/-- Claim C10: `Component.q` has no setter, so an assignment to `q` raises
`AttributeError`; consequently `set_next_components_q` raises on every chain
with a non-`None` `next`, and `flow_pipeline` never returns a flow — for
every chain and target it enters the loop (the error is initialised to 1.0)
and raises `AttributeError` (at the `self.q = flow` assignment whenever the
relative-error denominator is nonzero; the seeding step's own
`AttributeError` covers chains without a leading pipe). -/
theorem q_readonly_consequences (ph : Phys) (c : PComp) (t : ℚ) :
    set_q_attr = Except.error (PyErr.attributeError qSetterMsg)
    ∧ (c.next.isSome = true →
        set_next_components_q c = Except.error (PyErr.attributeError qSetterMsg))
    ∧ isOkB (flow_pipeline ph c t) = false
    ∧ (t + c.headloss_pipeline ph ≠ 0 →
        ∃ m, flow_pipeline ph c t = Except.error (PyErr.attributeError m)) := by
  have hguard : abs (1 : ℚ) > 1 / 100 := by norm_num
  refine ⟨rfl, ?_, ?_, ?_⟩
  · intro h
    cases c with
    | last n => simp [PComp.next] at h
    | cons n rest => rfl
  · rcases seedFlow_cases ph c t with ⟨fl, hs⟩ | hs
    · simp only [flow_pipeline, hs, Except.bind, if_pos hguard, loopBody]
      by_cases hz : t + c.headloss_pipeline ph = 0
      · rw [if_pos hz]
        rfl
      · rw [if_neg hz]
        rfl
    · simp [flow_pipeline, hs, Except.bind, isOkB]
  · intro hz
    rcases seedFlow_cases ph c t with ⟨fl, hs⟩ | hs
    · exact ⟨qSetterMsg, flow_pipeline_loop_error ph c t fl hs hz⟩
    · exact ⟨seedPipeMsg, by simp [flow_pipeline, hs, Except.bind]⟩

/-- Witness for claim C10 on a concrete `Pipe -> Elbow` chain and target
head loss 1: the flow propagation raises, and the solver raises instead of
returning a flow. -/
theorem q_readonly_consequences_witness :
    sampleChain2.next.isSome = true
    ∧ set_next_components_q sampleChain2
      = Except.error (PyErr.attributeError qSetterMsg)
    ∧ isOkB (flow_pipeline samplePhys sampleChain2 1) = false
    ∧ ∃ m, flow_pipeline samplePhys sampleChain2 1
        = Except.error (PyErr.attributeError m) := by
  have h := q_readonly_consequences samplePhys sampleChain2 1
  have hz : (1 : ℚ) + sampleChain2.headloss_pipeline samplePhys ≠ 0 := by
    norm_num [sampleChain2, PComp.headloss_pipeline, Node.headloss,
      samplePipeNode, sampleElbowNode, samplePhys]
  exact ⟨rfl, h.2.1 rfl, h.2.2.1, h.2.2.2 hz⟩

/-- Claim C1 (code bug): on the concrete chain consisting of a single
default `Pipe` with target head loss 1, `flow_pipeline` raises
`AttributeError` at the `self.q = flow` assignment (the `q` property has no
setter) instead of iterating to a flow whose aggregate head loss is within
the stopping tolerance of the target. -/
theorem flow_pipeline_sample_attribute_error :
    flow_pipeline samplePhys (PComp.last samplePipeNode) 1
      = Except.error (PyErr.attributeError qSetterMsg) := by
  have hz : (1 : ℚ) + (PComp.last samplePipeNode).headloss_pipeline samplePhys ≠ 0 := by
    norm_num [PComp.headloss_pipeline, Node.headloss, samplePipeNode, samplePhys]
  exact flow_pipeline_loop_error samplePhys (PComp.last samplePipeNode) 1 _ rfl hz

/-- Helper: `List.lookup` on a cons cell, stated with a propositional
`if`. -/
theorem lookup_cons_ite (k a v : Nat) (l : List (Nat × Nat)) :
    List.lookup k ((a, v) :: l) = if k = a then some v else List.lookup k l := by
  by_cases h : k = a
  · subst h
    simp [List.lookup_cons]
  · rw [if_neg h]
    have hb : (k == a) = false := beq_false_of_ne h
    simp [List.lookup_cons, hb]

/-- Helper: `propogate_config` with a registered source succeeds, leaves the
heap unchanged, and maps every propagated location to the source's record
address while leaving all other associations unchanged. -/
theorem propogate_config_ok (subs : List Nat) (s : RegState) (loc pa : Nat)
    (h : s.configs.lookup loc = some pa) :
    ∃ s2, Component.propogate_config loc subs s = Except.ok s2
      ∧ s2.heap = s.heap
      ∧ ∀ c : Nat, s2.configs.lookup c =
          if c ∈ subs then some pa else s.configs.lookup c := by
  induction subs generalizing s with
  | nil =>
    refine ⟨s, rfl, rfl, ?_⟩
    intro c
    simp
  | cons sub rest ih =>
    have h2 : (({ s with configs := (sub, pa) :: s.configs } : RegState)).configs.lookup loc
        = some pa := by
      show List.lookup loc ((sub, pa) :: s.configs) = some pa
      rw [lookup_cons_ite]
      by_cases hl : loc = sub
      · rw [if_pos hl]
      · rw [if_neg hl]
        exact h
    rcases ih _ h2 with ⟨s2, hrun, hheap, hlook⟩
    refine ⟨s2, ?_, hheap, ?_⟩
    · show Component.propogate_config loc (sub :: rest) s = Except.ok s2
      unfold Component.propogate_config
      rw [h]
      exact hrun
    · intro c
      rw [hlook c]
      by_cases hcr : c ∈ rest
      · rw [if_pos hcr, if_pos (List.mem_cons_of_mem _ hcr)]
      · rw [if_neg hcr]
        show List.lookup c ((sub, pa) :: s.configs)
          = if c ∈ sub :: rest then some pa else s.configs.lookup c
        rw [lookup_cons_ite]
        by_cases hcs : c = sub
        · rw [if_pos hcs, if_pos (by rw [hcs]; exact List.mem_cons_self sub rest)]
        · rw [if_neg hcs, if_neg (by simp [List.mem_cons, hcs, hcr])]

/-- Claim C3: after `parent.propogate_config(children)`, every child's
association holds the identical record reference as the parent's (address
equality, not value equality); hence reading the child's `q` gives exactly
the parent's flow rate, and a later in-place mutation of the parent's record
is visible through the child's `q` accessor. -/
theorem propogate_config_aliases (s : RegState) (loc : Nat) (subs : List Nat)
    (pa : Nat) (s2 : RegState)
    (h : s.configs.lookup loc = some pa)
    (hp : Component.propogate_config loc subs s = Except.ok s2) :
    ∀ c ∈ subs,
      s2.configs.lookup c = s2.configs.lookup loc
      ∧ s2.configs.lookup c = some pa
      ∧ Component.qAcc c s2 = Component.qAcc loc s2
      ∧ ∀ v s3, set_record_q loc v s2 = Except.ok s3 →
          Component.qAcc c s3 = Except.ok v := by
  rcases propogate_config_ok subs s loc pa h with ⟨s2x, hrun, hheap, hlook⟩
  rw [hrun] at hp
  have hs2 : s2x = s2 := by injection hp
  subst hs2
  have hloc : s2x.configs.lookup loc = some pa := by
    rw [hlook loc]
    by_cases hl : loc ∈ subs
    · rw [if_pos hl]
    · rw [if_neg hl]
      exact h
  intro c hc
  have hcc : s2x.configs.lookup c = some pa := by
    rw [hlook c, if_pos hc]
  refine ⟨by rw [hcc, hloc], hcc, ?_, ?_⟩
  · unfold Component.qAcc
    rw [hcc, hloc]
  · intro v s3 hset
    unfold set_record_q at hset
    rw [hloc] at hset
    have hs3 : ({ s2x with heap := fun b =>
        if b = pa then { s2x.heap b with q := v } else s2x.heap b } : RegState)
        = s3 := by injection hset
    subst hs3
    unfold Component.qAcc
    simp [hcc]

/-- Witness for claim C3 on concrete states: parent at location 1 (flow 20),
child at location 2 (flow 7); after propagation the child's slot holds
address 0 (the parent's record), the child reads the parent's flow 20, and
after mutating the parent's record to 99 the child reads 99. -/
theorem propogate_config_aliases_witness :
    Component.propogate_config 1 [2] sampleReg = Except.ok samplePropagated
    ∧ samplePropagated.configs.lookup 2 = some 0
    ∧ Component.qAcc 2 samplePropagated = Component.qAcc 1 samplePropagated
    ∧ Component.qAcc 2 samplePropagated = Except.ok 20
    ∧ set_record_q 1 99 samplePropagated = Except.ok sampleMutated
    ∧ Component.qAcc 2 sampleMutated = Except.ok 99 := by
  have h := propogate_config_aliases sampleReg 1 [2] 0 samplePropagated rfl rfl 2
    (List.mem_singleton.mpr rfl)
  exact ⟨rfl, h.2.1, h.2.2.1, rfl, rfl, h.2.2.2 99 sampleMutated rfl⟩

/-- Claim C8: the `q` and `temp` accessors always resolve through the
registry association — an unregistered component fails with `KeyError` (a
`LookupError`), and for a registered component the accessors return the
associated record's current fields, so an in-place mutation of the record is
observed (no local copy is consulted). -/
theorem accessors_resolve_registry (s : RegState) (loc : Nat) :
    (s.configs.lookup loc = none →
      Component.qAcc loc s = Except.error PyErr.keyError
      ∧ Component.tempAcc loc s = Except.error PyErr.keyError)
    ∧ ∀ a, s.configs.lookup loc = some a →
      Component.qAcc loc s = Except.ok (s.heap a).q
      ∧ Component.tempAcc loc s = Except.ok (s.heap a).temp
      ∧ ∀ v s3, set_record_q loc v s = Except.ok s3 →
          Component.qAcc loc s3 = Except.ok v := by
  constructor
  · intro h
    constructor
    · unfold Component.qAcc
      rw [h]
    · unfold Component.tempAcc
      rw [h]
  · intro a h
    refine ⟨?_, ?_, ?_⟩
    · unfold Component.qAcc
      rw [h]
    · unfold Component.tempAcc
      rw [h]
    · intro v s3 hset
      unfold set_record_q at hset
      rw [h] at hset
      have hs3 : ({ s with heap := fun b =>
          if b = a then { s.heap b with q := v } else s.heap b } : RegState)
          = s3 := by injection hset
      subst hs3
      unfold Component.qAcc
      simp [h]

/-- Witness for claim C8 on concrete states: location 5 was never
registered and fails with `KeyError`; registered location 1 reads its
record's fields, and reads 99 after the record is mutated in place. -/
theorem accessors_resolve_registry_witness :
    Component.qAcc 5 sampleReg = Except.error PyErr.keyError
    ∧ Component.tempAcc 5 sampleReg = Except.error PyErr.keyError
    ∧ Component.qAcc 1 sampleReg = Except.ok 20
    ∧ Component.tempAcc 1 sampleReg = Except.ok 20
    ∧ Component.qAcc 1 sampleRegMutated = Except.ok 99 := by
  have h5 := (accessors_resolve_registry sampleReg 5).1 rfl
  have h1 := (accessors_resolve_registry sampleReg 1).2 0 rfl
  refine ⟨h5.1, h5.2, ?_, ?_, h1.2.2 99 sampleRegMutated rfl⟩
  · rw [h1.1]
    rfl
  · rw [h1.2.1]
    rfl

end AguaClara
